import Mathlib

/-!
# Verification of the LangChain Service Python client

A shallow embedding of `ansible/scripts/langchain/langchain_client.py`:
a thin HTTP client plus a CLI shim.  JSON values are modelled by an
inductive type, request bodies by ordered association lists with Python
dict insertion semantics, and the HTTP transport by an oracle function so
that each client method becomes a pure function that records the requests
it issues.  Byte chunks of a streaming response are modelled by their
UTF-8 decodings (an empty byte chunk corresponds to the empty string).
-/

/-- JSON values, as produced by `response.json()` and sent via `json=payload`. -/
inductive Json where
  | str (s : String) : Json
  | num (n : Int) : Json
  | bool (b : Bool) : Json
  | null : Json
  | arr (xs : List Json) : Json
  | obj (kvs : List (String × Json)) : Json

/-- First-match lookup in an ordered association list (Python `d[k]` on a
dict whose keys are unique). -/
def lookupKey (kvs : List (String × Json)) (k : String) : Option Json :=
  match kvs with
  | [] => none
  | (k', v) :: rest => if k' = k then some v else lookupKey rest k

/-- Python dict assignment `d[k] = v`: updates an existing key in place
(keeping its position) or appends a new key at the end.  Dict literals and
`**` merges are folds of this operation. -/
def dictInsert (d : List (String × Json)) (k : String) (v : Json) : List (String × Json) :=
  if d.any (fun p => p.1 = k) then
    d.map (fun p => if p.1 = k then (k, v) else p)
  else
    d ++ [(k, v)]

/-- `base_url.rstrip('/')`: remove every trailing `'/'`. -/
def rstripSlashes (s : String) : String :=
  String.mk ((s.data.reverse.dropWhile (fun c => c = '/')).reverse)

/-- A string of `k` slashes, for reasoning about trailing-slash normalization. -/
def slashes (k : Nat) : String :=
  String.mk (List.replicate k '/')

/-- HTTP methods used by the client. -/
inductive Method where
  | get | post | delete
deriving Repr, DecidableEq

/-- One HTTP request as issued by `self.session.<method>(url, json=..., timeout=...)`. -/
structure Request where
  method : Method
  url : String
  body : Option Json
  stream : Bool
  timeout : Nat

/-- A non-streaming HTTP response whose body is well-formed JSON
(`response.json()` is modelled as already parsed). -/
structure Response where
  status : Nat
  body : Json

/-- A streaming HTTP response: a status plus the finite sequence of chunks
that `iter_content(chunk_size=None)` delivers, each given by its UTF-8
decoding (the empty string stands for an empty byte chunk). -/
structure StreamResponse where
  status : Nat
  chunks : List String

/-- Python exceptions relevant to the client:  `requests` transport
failures (connection errors, timeouts), `HTTPError` from
`raise_for_status`, `KeyError` from a missing field, `TypeError` from
subscripting / iterating a non-container. -/
inductive PyError where
  | transport (msg : String) : PyError
  | http (status : Nat) (detail : String) : PyError
  | keyError (key : String) : PyError
  | typeError : PyError
deriving Repr, DecidableEq

/-- `requests.exceptions.RequestException` covers transport failures and
`HTTPError`, but not `KeyError`/`TypeError`; the CLI catches exactly this class. -/
def PyError.isRequestError : PyError → Bool
  | .transport _ => true
  | .http _ _ => true
  | .keyError _ => false
  | .typeError => false

/-- The printable message of an exception, as interpolated by `f"Error: {e}"`. -/
def PyError.message : PyError → String
  | .transport m => m
  | .http s d => toString s ++ " " ++ d
  | .keyError k => k
  | .typeError => "TypeError"

/-- `response.raise_for_status()`: raises `HTTPError` exactly for 4xx
("Client Error") and 5xx ("Server Error") status codes; it only inspects
the status code. -/
def raise_for_status (status : Nat) : Except PyError Unit :=
  if 400 ≤ status ∧ status < 500 then
    Except.error (PyError.http status "Client Error")
  else if 500 ≤ status ∧ status < 600 then
    Except.error (PyError.http status "Server Error")
  else
    Except.ok ()

/-- Subscripting a parsed JSON body: `response.json()["k"]`.  On a
non-object it is a `TypeError`, on a missing key a `KeyError`. -/
def Json.getKey : Json → String → Except PyError Json
  | .obj kvs, k =>
    match lookupKey kvs k with
    | some v => Except.ok v
    | none => Except.error (PyError.keyError k)
  | _, _ => Except.error PyError.typeError

/-- The network, as an oracle: a transport either fails (connection error
or timeout, with a message) or produces a response. -/
def Transport : Type := Request → Except String Response

/-- The streaming network oracle. -/
def StreamTransport : Type := Request → Except String StreamResponse

/-- The uniform body shared by every client method: issue the single
request, propagate a transport failure, otherwise run the
response-handling code.  The second component records every request
issued during the call. -/
def runOp {α : Type} (req : Request) (handle : Response → Except PyError α)
    (t : Transport) : Except PyError α × List Request :=
  match t req with
  | .error m => (Except.error (PyError.transport m), [req])
  | .ok r => (handle r, [req])

/-- The client object: `__init__` strips trailing slashes from the base
URL and stores the timeout (default 120). -/
structure LangChainClient where
  base_url : String
  timeout : Nat
deriving Repr, DecidableEq

/-- `LangChainClient(base_url, timeout)`. -/
def clientInit (base_url : String) (timeout : Nat := 120) : LangChainClient :=
  { base_url := rstripSlashes base_url, timeout := timeout }

example : (clientInit "http://h///").base_url = "http://h" := by decide

/-- A Python dict literal: insert the written entries left to right into an
empty dict. -/
def dictLit (entries : List (String × Json)) : List (String × Json) :=
  entries.foldl (fun d kv => dictInsert d kv.1 kv.2) []

/-- Python truthiness of an `Optional[str]`: `None` and `""` are falsy. -/
def pyTruthy : Option String → Bool
  | none => false
  | some s => s != ""

/-- Handler for methods ending in `response.raise_for_status(); return response.json()`. -/
def jsonHandle (r : Response) : Except PyError Json := do
  raise_for_status r.status
  pure r.body

/-- Handler for methods ending in `raise_for_status(); return response.json()[k]`. -/
def fieldHandle (k : String) (r : Response) : Except PyError Json := do
  raise_for_status r.status
  r.body.getKey k

/-- `health`: `GET {base_url}/health`. -/
def health_request (c : LangChainClient) : Request :=
  { method := .get, url := c.base_url ++ "/health", body := none, stream := false, timeout := c.timeout }

def health (c : LangChainClient) (t : Transport) : Except PyError Json × List Request :=
  runOp (health_request c) jsonHandle t

/-- `info`: `GET {base_url}/info`. -/
def info_request (c : LangChainClient) : Request :=
  { method := .get, url := c.base_url ++ "/info", body := none, stream := false, timeout := c.timeout }

def info (c : LangChainClient) (t : Transport) : Except PyError Json × List Request :=
  runOp (info_request c) jsonHandle t

/-- `chat` payload: message and model_config always; `if session_id:` adds
the key only when the optional argument is truthy (not `None`, not `""`). -/
def chat_payload (message model_config : String) (session_id : Option String) :
    List (String × Json) :=
  let payload := dictLit [("message", Json.str message), ("model_config", Json.str model_config)]
  match session_id with
  | some s => if s != "" then dictInsert payload "session_id" (Json.str s) else payload
  | none => payload

/-- `chat`: `POST {base_url}/chat`. -/
def chat_request (c : LangChainClient) (message model_config : String)
    (session_id : Option String) : Request :=
  { method := .post, url := c.base_url ++ "/chat",
    body := some (Json.obj (chat_payload message model_config session_id)),
    stream := false, timeout := c.timeout }

def chat (c : LangChainClient) (message : String) (model_config : String)
    (session_id : Option String) (t : Transport) : Except PyError Json × List Request :=
  runOp (chat_request c message model_config session_id) (fieldHandle "response") t

/-- `chat_stream` payload (no optional session). -/
def chat_stream_payload (message model_config : String) : List (String × Json) :=
  dictLit [("message", Json.str message), ("model_config", Json.str model_config)]

/-- `chat_stream`: `POST {base_url}/chat/stream` with `stream=True`. -/
def chat_stream_request (c : LangChainClient) (message model_config : String) : Request :=
  { method := .post, url := c.base_url ++ "/chat/stream",
    body := some (Json.obj (chat_stream_payload message model_config)),
    stream := true, timeout := c.timeout }

/-- The generator `chat_stream` as a whole-sequence function: after
`raise_for_status`, `for chunk in iter_content: if chunk: yield decode(chunk)`
yields the decoding of each truthy (non-empty) chunk, in arrival order. -/
def chat_stream (c : LangChainClient) (message model_config : String)
    (t : StreamTransport) : Except PyError (List String) × List Request :=
  let req := chat_stream_request c message model_config
  match t req with
  | .error m => (Except.error (PyError.transport m), [req])
  | .ok r =>
    (do raise_for_status r.status
        pure (r.chunks.filter (fun chunk => chunk != "")), [req])

/-- `rag_query` payload. -/
def rag_query_payload (question collection model_config : String) (k : Int) :
    List (String × Json) :=
  dictLit [("question", Json.str question), ("collection", Json.str collection),
           ("model_config", Json.str model_config), ("k", Json.num k)]

/-- `rag_query`: `POST {base_url}/rag/query`. -/
def rag_query_request (c : LangChainClient) (question collection model_config : String)
    (k : Int) : Request :=
  { method := .post, url := c.base_url ++ "/rag/query",
    body := some (Json.obj (rag_query_payload question collection model_config k)),
    stream := false, timeout := c.timeout }

def rag_query (c : LangChainClient) (question collection model_config : String) (k : Int)
    (t : Transport) : Except PyError Json × List Request :=
  runOp (rag_query_request c question collection model_config k) jsonHandle t

/-- `rag_conversational` payload: `if session_id:` adds the key only when truthy. -/
def rag_conversational_payload (question collection model_config : String) (k : Int)
    (session_id : Option String) : List (String × Json) :=
  let payload := dictLit [("question", Json.str question), ("collection", Json.str collection),
                          ("model_config", Json.str model_config), ("k", Json.num k)]
  match session_id with
  | some s => if s != "" then dictInsert payload "session_id" (Json.str s) else payload
  | none => payload

/-- `rag_conversational`: `POST {base_url}/rag/conversational`. -/
def rag_conversational_request (c : LangChainClient)
    (question collection model_config : String) (k : Int) (session_id : Option String) :
    Request :=
  { method := .post, url := c.base_url ++ "/rag/conversational",
    body := some (Json.obj (rag_conversational_payload question collection model_config k session_id)),
    stream := false, timeout := c.timeout }

def rag_conversational (c : LangChainClient) (question collection model_config : String)
    (k : Int) (session_id : Option String) (t : Transport) :
    Except PyError Json × List Request :=
  runOp (rag_conversational_request c question collection model_config k session_id)
    jsonHandle t

/-- `run_agent`: `POST {base_url}/agent/run`. -/
def run_agent_request (c : LangChainClient) (task agent_type : String) (verbose : Bool) :
    Request :=
  { method := .post, url := c.base_url ++ "/agent/run",
    body := some (Json.obj (dictLit [("task", Json.str task), ("agent_type", Json.str agent_type),
                                     ("verbose", Json.bool verbose)])),
    stream := false, timeout := c.timeout }

def run_agent (c : LangChainClient) (task agent_type : String) (verbose : Bool)
    (t : Transport) : Except PyError Json × List Request :=
  runOp (run_agent_request c task agent_type verbose) jsonHandle t

/-- `troubleshoot`: `POST {base_url}/agent/troubleshoot`. -/
def troubleshoot_request (c : LangChainClient) (issue : String) (verbose : Bool) : Request :=
  { method := .post, url := c.base_url ++ "/agent/troubleshoot",
    body := some (Json.obj (dictLit [("issue", Json.str issue), ("verbose", Json.bool verbose)])),
    stream := false, timeout := c.timeout }

def troubleshoot (c : LangChainClient) (issue : String) (verbose : Bool) (t : Transport) :
    Except PyError Json × List Request :=
  runOp (troubleshoot_request c issue verbose) jsonHandle t

/-- `summarize`: `POST {base_url}/summarize`, returns the `summary` field. -/
def summarize_request (c : LangChainClient) (text prompt_type model_config : String) :
    Request :=
  { method := .post, url := c.base_url ++ "/summarize",
    body := some (Json.obj (dictLit [("text", Json.str text), ("prompt_type", Json.str prompt_type),
                                     ("model_config", Json.str model_config)])),
    stream := false, timeout := c.timeout }

def summarize (c : LangChainClient) (text prompt_type model_config : String)
    (t : Transport) : Except PyError Json × List Request :=
  runOp (summarize_request c text prompt_type model_config) (fieldHandle "summary") t

/-- `analyze_logs`: `POST {base_url}/summarize/log`. -/
def analyze_logs_request (c : LangChainClient) (log_content model_config : String) : Request :=
  { method := .post, url := c.base_url ++ "/summarize/log",
    body := some (Json.obj (dictLit [("log_content", Json.str log_content),
                                     ("model_config", Json.str model_config)])),
    stream := false, timeout := c.timeout }

def analyze_logs (c : LangChainClient) (log_content model_config : String) (t : Transport) :
    Except PyError Json × List Request :=
  runOp (analyze_logs_request c log_content model_config) jsonHandle t

/-- `analyze_config`: `POST {base_url}/summarize/config`. -/
def analyze_config_request (c : LangChainClient)
    (config_content config_type model_config : String) : Request :=
  { method := .post, url := c.base_url ++ "/summarize/config",
    body := some (Json.obj (dictLit [("config_content", Json.str config_content),
                                     ("config_type", Json.str config_type),
                                     ("model_config", Json.str model_config)])),
    stream := false, timeout := c.timeout }

def analyze_config (c : LangChainClient) (config_content config_type model_config : String)
    (t : Transport) : Except PyError Json × List Request :=
  runOp (analyze_config_request c config_content config_type model_config) jsonHandle t

/-- `create_memory` payload: the dict literal
`\x7b"session_id": ..., "memory_type": ..., **kwargs\x7d`, i.e. the two fixed
entries followed by a left-to-right merge of every extra keyword pair. -/
def create_memory_payload (session_id memory_type : String)
    (kwargs : List (String × Json)) : List (String × Json) :=
  kwargs.foldl (fun d kv => dictInsert d kv.1 kv.2)
    (dictLit [("session_id", Json.str session_id), ("memory_type", Json.str memory_type)])

/-- `create_memory`: `POST {base_url}/memory/create`. -/
def create_memory_request (c : LangChainClient) (session_id memory_type : String)
    (kwargs : List (String × Json)) : Request :=
  { method := .post, url := c.base_url ++ "/memory/create",
    body := some (Json.obj (create_memory_payload session_id memory_type kwargs)),
    stream := false, timeout := c.timeout }

def create_memory (c : LangChainClient) (session_id memory_type : String)
    (kwargs : List (String × Json)) (t : Transport) : Except PyError Json × List Request :=
  runOp (create_memory_request c session_id memory_type kwargs) jsonHandle t

/-- `get_memory_history`: `GET {base_url}/memory/{session_id}/history`,
returns the `history` field. -/
def get_memory_history_request (c : LangChainClient) (session_id : String) : Request :=
  { method := .get, url := c.base_url ++ "/memory/" ++ session_id ++ "/history",
    body := none, stream := false, timeout := c.timeout }

def get_memory_history (c : LangChainClient) (session_id : String) (t : Transport) :
    Except PyError Json × List Request :=
  runOp (get_memory_history_request c session_id) (fieldHandle "history") t

/-- `clear_memory`: `DELETE {base_url}/memory/{session_id}/clear`. -/
def clear_memory_request (c : LangChainClient) (session_id : String) : Request :=
  { method := .delete, url := c.base_url ++ "/memory/" ++ session_id ++ "/clear",
    body := none, stream := false, timeout := c.timeout }

def clear_memory (c : LangChainClient) (session_id : String) (t : Transport) :
    Except PyError Json × List Request :=
  runOp (clear_memory_request c session_id) jsonHandle t

/-- `list_conversations`: `GET {base_url}/conversations`, returns the
`conversations` field. -/
def list_conversations_request (c : LangChainClient) : Request :=
  { method := .get, url := c.base_url ++ "/conversations",
    body := none, stream := false, timeout := c.timeout }

def list_conversations (c : LangChainClient) (t : Transport) :
    Except PyError Json × List Request :=
  runOp (list_conversations_request c) (fieldHandle "conversations") t

/-- `get_conversation`: `GET {base_url}/conversations/{session_id}`. -/
def get_conversation_request (c : LangChainClient) (session_id : String) : Request :=
  { method := .get, url := c.base_url ++ "/conversations/" ++ session_id,
    body := none, stream := false, timeout := c.timeout }

def get_conversation (c : LangChainClient) (session_id : String) (t : Transport) :
    Except PyError Json × List Request :=
  runOp (get_conversation_request c session_id) jsonHandle t

/-- `delete_conversation`: `DELETE {base_url}/conversations/{session_id}`. -/
def delete_conversation_request (c : LangChainClient) (session_id : String) : Request :=
  { method := .delete, url := c.base_url ++ "/conversations/" ++ session_id,
    body := none, stream := false, timeout := c.timeout }

def delete_conversation (c : LangChainClient) (session_id : String) (t : Transport) :
    Except PyError Json × List Request :=
  runOp (delete_conversation_request c session_id) jsonHandle t

/-- The detail text `raise_for_status` attaches: "Client Error" for 4xx,
"Server Error" for 5xx. -/
def statusDetail (status : Nat) : String :=
  if status < 500 then "Client Error" else "Server Error"

/-- A transport whose response is always the given status and JSON body. -/
def respond (status : Nat) (body : Json) : Transport :=
  fun _ => Except.ok { status := status, body := body }

/-- A transport that always fails (connection error / timeout) with message `m`. -/
def failWith (m : String) : Transport :=
  fun _ => Except.error m

/-- A streaming transport delivering the given status and chunk sequence. -/
def streamRespond (status : Nat) (chunks : List String) : StreamTransport :=
  fun _ => Except.ok { status := status, chunks := chunks }

/-- A streaming transport that always fails with message `m`. -/
def streamFailWith (m : String) : StreamTransport :=
  fun _ => Except.error m

/-- The CLI subcommands built by the argument parser, with their
positional/optional arguments already bound (defaults applied by argparse:
chat model "general", rag collection "langchain_general" and k 5, agent
type "devops", summarize prompt type "general"). -/
inductive CliCommand where
  | health : CliCommand
  | info : CliCommand
  | chat (message model : String) (session : Option String) : CliCommand
  | rag (question collection : String) (k : Int) : CliCommand
  | agent (task agent_type : String) : CliCommand
  | summarize (text prompt_type : String) : CliCommand

/-- The observable outcome of one CLI invocation: the process exit code,
whether `parser.print_help()` ran, the JSON values printed to standard
output (formatting abstracted away), and the text printed to standard
error. -/
structure CliResult where
  exitCode : Nat
  helpPrinted : Bool
  stdoutVals : List Json
  stderrText : String

/-- The CLI dispatch block (the `if/elif` chain inside the `try`): invokes
the matching client method and computes the values printed on success; any
exception escapes to the surrounding handler.  For `rag` it prints the
`answer` field then the `metadata` field of each source; for `agent` the
`output` field; `summarize` substitutes standard input for a `-` text
argument. -/
def cli_dispatch (client : LangChainClient) (cmd : CliCommand) (stdinText : String)
    (t : Transport) : Except PyError (List Json) :=
  match cmd with
  | .health => (health client t).1.map (fun result => [result])
  | .info => (info client t).1.map (fun result => [result])
  | .chat message model session =>
    (chat client message model session t).1.map (fun response => [response])
  | .rag question collection k => do
    let result ← (rag_query client question collection "general" k t).1
    let answer ← result.getKey "answer"
    let sources ← result.getKey "sources"
    match sources with
    | Json.arr xs => do
      let metas ← xs.mapM (fun source => source.getKey "metadata")
      pure (answer :: metas)
    | _ => Except.error PyError.typeError
  | .agent task agent_type => do
    let result ← (run_agent client task agent_type false t).1
    let output ← result.getKey "output"
    pure [output]
  | .summarize text prompt_type =>
    let realText := if text = "-" then stdinText else text
    (summarize client realText prompt_type "general" t).1.map (fun summary => [summary])

/-- The `__main__` block after argument parsing: with no subcommand, print
help and `sys.exit(1)`; otherwise construct the client from `--url`,
dispatch, and print results (exit 0).  A `requests.exceptions.RequestException`
is caught, printed as `Error: ...` on standard error, and the process
exits 1; any other exception escapes as an uncaught traceback (also
terminating the process with a nonzero code). -/
def cli_main (url : String) (cmd : Option CliCommand) (stdinText : String)
    (t : Transport) : CliResult :=
  match cmd with
  | none => { exitCode := 1, helpPrinted := true, stdoutVals := [], stderrText := "" }
  | some command =>
    let client := clientInit url
    match cli_dispatch client command stdinText t with
    | Except.ok outs =>
      { exitCode := 0, helpPrinted := false, stdoutVals := outs, stderrText := "" }
    | Except.error e =>
      if e.isRequestError then
        { exitCode := 1, helpPrinted := false, stdoutVals := [],
          stderrText := "Error: " ++ e.message }
      else
        { exitCode := 1, helpPrinted := false, stdoutVals := [],
          stderrText := "Traceback (most recent call last): " ++ e.message }

/-! ## Helper lemmas -/

/-- Every call built on `runOp` records exactly its one request. -/
theorem runOp_trace {α : Type} (req : Request) (handle : Response → Except PyError α)
    (t : Transport) : (runOp req handle t).2 = [req] := by
  unfold runOp
  cases t req <;> rfl

/-- A transport failure propagates as a `transport` exception. -/
theorem runOp_transport_error {α : Type} (req : Request)
    (handle : Response → Except PyError α) (m : String) :
    (runOp req handle (fun _ => Except.error m)).1 = Except.error (PyError.transport m) := rfl

/-- Dropping leading slashes ignores a block of slashes in front. -/
theorem dropWhile_replicate_slash_append (k : Nat) (l : List Char) :
    List.dropWhile (fun c => decide (c = '/')) (List.replicate k '/' ++ l) =
      List.dropWhile (fun c => decide (c = '/')) l := by
  induction k with
  | zero => rfl
  | succ n ih =>
    rw [List.replicate_succ, List.cons_append, List.dropWhile_cons]
    simp [ih]

/-- Appending trailing slashes does not change the result of `rstrip('/')`. -/
theorem rstripSlashes_append_slashes (u : String) (k : Nat) :
    rstripSlashes (u ++ slashes k) = rstripSlashes u := by
  have hdata : (u ++ slashes k).data = u.data ++ List.replicate k '/' := by
    rw [String.data_append]; rfl
  unfold rstripSlashes
  rw [hdata, List.reverse_append, List.reverse_replicate,
    dropWhile_replicate_slash_append]

/-- The constructor normalizes away trailing slashes in the base URL. -/
theorem clientInit_append_slashes (u : String) (k timeout : Nat) :
    clientInit (u ++ slashes k) timeout = clientInit u timeout := by
  simp [clientInit, rstripSlashes_append_slashes]

/-- Cancel a common prefix of two string concatenations. -/
theorem string_append_inj_right (p s t : String) (h : p ++ s = p ++ t) : s = t := by
  apply String.ext
  have h' := congrArg String.data h
  rw [String.data_append, String.data_append] at h'
  exact List.append_cancel_left h'

/-- Cancel a common prefix and suffix of two string concatenations. -/
theorem string_append_inj_middle (p q s t : String) (h : p ++ s ++ q = p ++ t ++ q) :
    s = t := by
  apply String.ext
  have h' := congrArg String.data h
  simp only [String.data_append] at h'
  exact List.append_cancel_left (List.append_cancel_right h')

/-! ## Claim theorems -/

/-- C7: when the CLI is invoked with no subcommand it prints the help text,
prints nothing else, and the process exits with status code 1. -/
theorem cli_no_command_prints_help_and_exits_1 (url stdinText : String) (t : Transport) :
    (cli_main url none stdinText t).exitCode = 1 ∧
    (cli_main url none stdinText t).helpPrinted = true ∧
    (cli_main url none stdinText t).stderrText = "" ∧
    (cli_main url none stdinText t).stdoutVals = [] :=
  ⟨rfl, rfl, rfl, rfl⟩

/-- C9: for `chat` and `rag_conversational`, a session id given as the
empty string is treated exactly like an absent one (`if session_id:` is
false for both `None` and `""`), so the two calls build identical requests. -/
theorem empty_session_id_same_as_absent (c : LangChainClient)
    (message model_config question collection : String) (k : Int) :
    chat_request c message model_config (some "") =
      chat_request c message model_config none ∧
    rag_conversational_request c question collection model_config k (some "") =
      rag_conversational_request c question collection model_config k none :=
  ⟨rfl, rfl⟩

/-- C8: request construction is invariant under trailing slashes on the
base URL: `__init__` strips them, so a client built from `u` and one built
from `u` plus any number of trailing `'/'` issue identical requests (same
URL, method, body) for every operation. -/
theorem trailing_slashes_irrelevant (u : String) (k timeout : Nat) :
    clientInit (u ++ slashes k) timeout = clientInit u timeout ∧
    health_request (clientInit (u ++ slashes k) timeout) =
      health_request (clientInit u timeout) ∧
    info_request (clientInit (u ++ slashes k) timeout) =
      info_request (clientInit u timeout) ∧
    (∀ m mc sid, chat_request (clientInit (u ++ slashes k) timeout) m mc sid =
      chat_request (clientInit u timeout) m mc sid) ∧
    (∀ m mc, chat_stream_request (clientInit (u ++ slashes k) timeout) m mc =
      chat_stream_request (clientInit u timeout) m mc) ∧
    (∀ q coll mc n, rag_query_request (clientInit (u ++ slashes k) timeout) q coll mc n =
      rag_query_request (clientInit u timeout) q coll mc n) ∧
    (∀ q coll mc n sid,
      rag_conversational_request (clientInit (u ++ slashes k) timeout) q coll mc n sid =
        rag_conversational_request (clientInit u timeout) q coll mc n sid) ∧
    (∀ task at_ vb, run_agent_request (clientInit (u ++ slashes k) timeout) task at_ vb =
      run_agent_request (clientInit u timeout) task at_ vb) ∧
    (∀ issue vb, troubleshoot_request (clientInit (u ++ slashes k) timeout) issue vb =
      troubleshoot_request (clientInit u timeout) issue vb) ∧
    (∀ text pt mc, summarize_request (clientInit (u ++ slashes k) timeout) text pt mc =
      summarize_request (clientInit u timeout) text pt mc) ∧
    (∀ lc mc, analyze_logs_request (clientInit (u ++ slashes k) timeout) lc mc =
      analyze_logs_request (clientInit u timeout) lc mc) ∧
    (∀ cc ct mc, analyze_config_request (clientInit (u ++ slashes k) timeout) cc ct mc =
      analyze_config_request (clientInit u timeout) cc ct mc) ∧
    (∀ sid mt kw, create_memory_request (clientInit (u ++ slashes k) timeout) sid mt kw =
      create_memory_request (clientInit u timeout) sid mt kw) ∧
    (∀ sid, get_memory_history_request (clientInit (u ++ slashes k) timeout) sid =
      get_memory_history_request (clientInit u timeout) sid) ∧
    (∀ sid, clear_memory_request (clientInit (u ++ slashes k) timeout) sid =
      clear_memory_request (clientInit u timeout) sid) ∧
    list_conversations_request (clientInit (u ++ slashes k) timeout) =
      list_conversations_request (clientInit u timeout) ∧
    (∀ sid, get_conversation_request (clientInit (u ++ slashes k) timeout) sid =
      get_conversation_request (clientInit u timeout) sid) ∧
    (∀ sid, delete_conversation_request (clientInit (u ++ slashes k) timeout) sid =
      delete_conversation_request (clientInit u timeout) sid) := by
  rw [clientInit_append_slashes]
  refine ⟨rfl, rfl, rfl, ?_, ?_, ?_, ?_, ?_, ?_, ?_, ?_, ?_, ?_, ?_, ?_, rfl, ?_, ?_⟩ <;>
    intros <;> rfl

/-- C10: the four session-scoped operations interpolate the session id
verbatim and unescaped into the URL path; distinct session ids always
yield distinct URLs, and ids containing `'/'` or `'?'` land in the URL
unchanged, altering the requested path (shown on concrete inputs). -/
theorem session_id_embedded_verbatim_in_url :
    (∀ c s, (get_memory_history_request c s).url =
      c.base_url ++ "/memory/" ++ s ++ "/history") ∧
    (∀ c s, (clear_memory_request c s).url = c.base_url ++ "/memory/" ++ s ++ "/clear") ∧
    (∀ c s, (get_conversation_request c s).url = c.base_url ++ "/conversations/" ++ s) ∧
    (∀ c s, (delete_conversation_request c s).url = c.base_url ++ "/conversations/" ++ s) ∧
    (∀ c s₁ s₂, (get_memory_history_request c s₁).url =
      (get_memory_history_request c s₂).url → s₁ = s₂) ∧
    (∀ c s₁ s₂, (clear_memory_request c s₁).url = (clear_memory_request c s₂).url →
      s₁ = s₂) ∧
    (∀ c s₁ s₂, (get_conversation_request c s₁).url = (get_conversation_request c s₂).url →
      s₁ = s₂) ∧
    (∀ c s₁ s₂, (delete_conversation_request c s₁).url =
      (delete_conversation_request c s₂).url → s₁ = s₂) ∧
    (get_memory_history_request (clientInit "http://h") "a/b?x=1").url =
      "http://h/memory/a/b?x=1/history" ∧
    (get_conversation_request (clientInit "http://h") "a/b?x=1").url =
      "http://h/conversations/a/b?x=1" := by
  refine ⟨fun c s => rfl, fun c s => rfl, fun c s => rfl, fun c s => rfl,
    ?_, ?_, ?_, ?_, by decide, by decide⟩
  · intro c s₁ s₂ h
    exact string_append_inj_middle (c.base_url ++ "/memory/") "/history" s₁ s₂ h
  · intro c s₁ s₂ h
    exact string_append_inj_middle (c.base_url ++ "/memory/") "/clear" s₁ s₂ h
  · intro c s₁ s₂ h
    exact string_append_inj_right (c.base_url ++ "/conversations/") s₁ s₂ h
  · intro c s₁ s₂ h
    exact string_append_inj_right (c.base_url ++ "/conversations/") s₁ s₂ h

/-- Witness for C10: the injectivity components applied at concrete inputs. -/
theorem session_id_embedded_verbatim_in_url_witness :
    ("s1" : String) = "s1" ∧ ("s2" : String) = "s2" ∧
    ("s3" : String) = "s3" ∧ ("s4" : String) = "s4" :=
  ⟨session_id_embedded_verbatim_in_url.2.2.2.2.1 (clientInit "http://h") "s1" "s1" rfl,
   session_id_embedded_verbatim_in_url.2.2.2.2.2.1 (clientInit "http://h") "s2" "s2" rfl,
   session_id_embedded_verbatim_in_url.2.2.2.2.2.2.1 (clientInit "http://h") "s3" "s3" rfl,
   session_id_embedded_verbatim_in_url.2.2.2.2.2.2.2.1 (clientInit "http://h") "s4" "s4" rfl⟩

/-- Counterexample to C3 as stated: a session id that IS provided, but as
the empty string, is dropped from the request body of both `chat` and
`rag_conversational` (the code tests truthiness, not presence). -/
theorem provided_empty_session_id_dropped :
    lookupKey (chat_payload "hi" "general" (some "")) "session_id" = none ∧
    lookupKey (rag_conversational_payload "q" "docs" "general" 5 (some "")) "session_id" =
      none :=
  ⟨rfl, rfl⟩

/-- C3 (amended): the request body of `chat` / `rag_conversational` has no
`session_id` key at all when the session id is absent, and a provided
NON-EMPTY session id is included under the `session_id` key. -/
theorem session_id_omitted_when_absent (m mc q coll : String) (k : Int) (s : String)
    (hs : s ≠ "") :
    chat_payload m mc none = [("message", Json.str m), ("model_config", Json.str mc)] ∧
    lookupKey (chat_payload m mc none) "session_id" = none ∧
    chat_payload m mc (some s) =
      [("message", Json.str m), ("model_config", Json.str mc), ("session_id", Json.str s)] ∧
    rag_conversational_payload q coll mc k none =
      [("question", Json.str q), ("collection", Json.str coll),
       ("model_config", Json.str mc), ("k", Json.num k)] ∧
    lookupKey (rag_conversational_payload q coll mc k none) "session_id" = none ∧
    rag_conversational_payload q coll mc k (some s) =
      [("question", Json.str q), ("collection", Json.str coll),
       ("model_config", Json.str mc), ("k", Json.num k), ("session_id", Json.str s)] := by
  refine ⟨rfl, rfl, ?_, rfl, rfl, ?_⟩ <;>
    simp [chat_payload, rag_conversational_payload, dictLit, dictInsert, hs]

/-- Witness for C3 (amended) at a concrete non-empty session id. -/
theorem session_id_omitted_when_absent_witness :
    lookupKey (chat_payload "hi" "general" none) "session_id" = none ∧
    chat_payload "hi" "general" (some "s-1") =
      [("message", Json.str "hi"), ("model_config", Json.str "general"),
       ("session_id", Json.str "s-1")] :=
  ⟨(session_id_omitted_when_absent "hi" "general" "q" "docs" 5 "s-1" (by decide)).2.1,
   (session_id_omitted_when_absent "hi" "general" "q" "docs" 5 "s-1" (by decide)).2.2.1⟩

/-- Folding append over a chunk list ignores empty chunks. -/
theorem foldl_append_filter_nonempty (l : List String) (acc : String) :
    (l.filter (fun chunk => chunk != "")).foldl (fun r s => r ++ s) acc =
      l.foldl (fun r s => r ++ s) acc := by
  induction l generalizing acc with
  | nil => rfl
  | cons x xs ih =>
    by_cases hx : x = ""
    · subst hx
      rw [List.filter_cons]
      simp only [bne_self_eq_false, if_neg (by simp : ¬ (false = true))]
      rw [ih, List.foldl_cons, String.append_empty]
    · rw [List.filter_cons, if_pos (by simpa using hx), List.foldl_cons, List.foldl_cons, ih]

/-- Skipping empty chunks does not change the concatenation. -/
theorem join_filter_nonempty (l : List String) :
    String.join (l.filter (fun chunk => chunk != "")) = String.join l :=
  foldl_append_filter_nonempty l ""

/-- Counterexample to C1 as stated: a body delivered in 3 chunks of which
the middle one is empty makes `chat_stream` yield only 2 fragments — the
`if chunk:` test drops falsy (empty) chunks, so the yield count can be
smaller than the chunk count. -/
theorem chat_stream_drops_empty_chunks :
    (chat_stream (clientInit "http://h") "hi" "general"
      (streamRespond 200 ["a", "", "b"])).1 = Except.ok ["a", "b"] ∧
    (["a", "", "b"] : List String).length = 3 ∧
    (["a", "b"] : List String).length ≠ 3 :=
  ⟨rfl, rfl, by decide⟩

/-- C1 (amended): on a 200 streaming response delivered as a chunk
sequence, `chat_stream` yields exactly the decoded non-empty chunks, in
arrival order (one fragment per non-empty chunk, empty chunks skipped),
and the concatenation of the yielded fragments equals the full response
body. -/
theorem chat_stream_yields_nonempty_chunks_in_order (c : LangChainClient)
    (message model_config : String) (chunks : List String) :
    (chat_stream c message model_config (streamRespond 200 chunks)).1 =
      Except.ok (chunks.filter (fun chunk => chunk != "")) ∧
    String.join (chunks.filter (fun chunk => chunk != "")) = String.join chunks :=
  ⟨rfl, join_filter_nonempty chunks⟩

/-- Assigning a key not present in a dict appends it at the end. -/
theorem dictInsert_fresh (d : List (String × Json)) (k : String) (v : Json)
    (h : ∀ p ∈ d, p.1 ≠ k) : dictInsert d k v = d ++ [(k, v)] := by
  unfold dictInsert
  rw [if_neg]
  simp only [List.any_eq_true, decide_eq_true_eq]
  rintro ⟨p, hp, hpk⟩
  exact h p hp hpk

/-- Merging pairwise-distinct fresh keys into a dict appends them in order. -/
theorem foldl_dictInsert_fresh (kwargs : List (String × Json)) :
    ∀ d : List (String × Json),
      (∀ p ∈ kwargs, ∀ q ∈ d, q.1 ≠ p.1) → (kwargs.map Prod.fst).Nodup →
      kwargs.foldl (fun d kv => dictInsert d kv.1 kv.2) d = d ++ kwargs := by
  induction kwargs with
  | nil => intro d _ _; simp
  | cons kv rest ih =>
    intro d hfresh hnodup
    rw [List.foldl_cons,
      dictInsert_fresh d kv.1 kv.2 (fun q hq => hfresh kv (List.mem_cons_self kv rest) q hq)]
    rw [List.map_cons, List.nodup_cons] at hnodup
    rw [ih (d ++ [kv]) ?_ hnodup.2]
    · simp
    · intro p hp q hq
      rcases List.mem_append.mp hq with hq1 | hq2
      · exact hfresh p (List.mem_cons_of_mem kv hp) q hq1
      · have hqkv : q = kv := by simpa using hq2
        subst hqkv
        intro hcontra
        exact hnodup.1 (hcontra ▸ List.mem_map_of_mem Prod.fst hp)

/-- C5: `create_memory` sends exactly the mapping with the `session_id`
and `memory_type` keys followed by every extra keyword pair verbatim.
The hypotheses mirror what Python guarantees for `**kwargs`: keyword
names are pairwise distinct and cannot collide with the named parameters
`session_id` and `memory_type`. -/
theorem create_memory_body_merges_kwargs_verbatim (c : LangChainClient)
    (session_id memory_type : String) (kwargs : List (String × Json))
    (h1 : ∀ p ∈ kwargs, p.1 ≠ "session_id")
    (h2 : ∀ p ∈ kwargs, p.1 ≠ "memory_type")
    (h3 : (kwargs.map Prod.fst).Nodup) :
    create_memory_payload session_id memory_type kwargs =
      ("session_id", Json.str session_id) :: ("memory_type", Json.str memory_type) ::
        kwargs ∧
    (create_memory_request c session_id memory_type kwargs).body =
      some (Json.obj (("session_id", Json.str session_id) ::
        ("memory_type", Json.str memory_type) :: kwargs)) := by
  have hpay : create_memory_payload session_id memory_type kwargs =
      ("session_id", Json.str session_id) :: ("memory_type", Json.str memory_type) ::
        kwargs := by
    unfold create_memory_payload
    have hbase : dictLit [("session_id", Json.str session_id),
        ("memory_type", Json.str memory_type)] =
        [("session_id", Json.str session_id), ("memory_type", Json.str memory_type)] := rfl
    rw [hbase, foldl_dictInsert_fresh kwargs _ ?_ h3]
    · rfl
    · intro p hp q hq
      have hq' : q = ("session_id", Json.str session_id) ∨
          q = ("memory_type", Json.str memory_type) := by simpa using hq
      rcases hq' with hq1 | hq1 <;> subst hq1
      · exact fun hc => h1 p hp hc.symm
      · exact fun hc => h2 p hp hc.symm
  exact ⟨hpay, by rw [create_memory_request, hpay]⟩

/-- Witness for C5 at one extra keyword argument `k=5`. -/
theorem create_memory_body_merges_kwargs_verbatim_witness :
    create_memory_payload "sess-1" "buffer_window" [("k", Json.num 5)] =
      [("session_id", Json.str "sess-1"), ("memory_type", Json.str "buffer_window"),
       ("k", Json.num 5)] :=
  (create_memory_body_merges_kwargs_verbatim (clientInit "http://h") "sess-1"
    "buffer_window" [("k", Json.num 5)]
    (by intro p hp; simp at hp; simp [hp]) (by intro p hp; simp at hp; simp [hp])
    (by simp)).1

/-- C4: a 200 response with a well-formed JSON body yields the documented
extraction unchanged: `chat` the `response` field, `summarize` the
`summary` field, `get_memory_history` the `history` field,
`list_conversations` the `conversations` field, and every remaining
operation the whole parsed mapping.  Each field-extracting operation has
its own response body, constrained only to contain its own documented
field. -/
theorem success_returns_documented_extraction
    (kvsR kvsS kvsH kvsC : List (String × Json)) (body : Json)
    (vr vs vh vc : Json)
    (hr : lookupKey kvsR "response" = some vr)
    (hs : lookupKey kvsS "summary" = some vs)
    (hh : lookupKey kvsH "history" = some vh)
    (hc : lookupKey kvsC "conversations" = some vc) :
    (∀ c m mc sid, (chat c m mc sid (respond 200 (Json.obj kvsR))).1 = Except.ok vr) ∧
    (∀ c text pt mc,
      (summarize c text pt mc (respond 200 (Json.obj kvsS))).1 = Except.ok vs) ∧
    (∀ c sid, (get_memory_history c sid (respond 200 (Json.obj kvsH))).1 = Except.ok vh) ∧
    (∀ c, (list_conversations c (respond 200 (Json.obj kvsC))).1 = Except.ok vc) ∧
    (∀ c, (health c (respond 200 body)).1 = Except.ok body) ∧
    (∀ c, (info c (respond 200 body)).1 = Except.ok body) ∧
    (∀ c q coll mc k, (rag_query c q coll mc k (respond 200 body)).1 = Except.ok body) ∧
    (∀ c q coll mc k sid,
      (rag_conversational c q coll mc k sid (respond 200 body)).1 = Except.ok body) ∧
    (∀ c task at_ vb, (run_agent c task at_ vb (respond 200 body)).1 = Except.ok body) ∧
    (∀ c issue vb, (troubleshoot c issue vb (respond 200 body)).1 = Except.ok body) ∧
    (∀ c lc mc, (analyze_logs c lc mc (respond 200 body)).1 = Except.ok body) ∧
    (∀ c cc ct mc,
      (analyze_config c cc ct mc (respond 200 body)).1 = Except.ok body) ∧
    (∀ c sid mt kw, (create_memory c sid mt kw (respond 200 body)).1 = Except.ok body) ∧
    (∀ c sid, (clear_memory c sid (respond 200 body)).1 = Except.ok body) ∧
    (∀ c sid, (get_conversation c sid (respond 200 body)).1 = Except.ok body) ∧
    (∀ c sid, (delete_conversation c sid (respond 200 body)).1 = Except.ok body) := by
  refine ⟨?_, ?_, ?_, ?_, fun c => rfl, fun c => rfl, fun c q coll mc k => rfl,
    fun c q coll mc k sid => rfl, fun c task at_ vb => rfl, fun c issue vb => rfl,
    fun c lc mc => rfl, fun c cc ct mc => rfl, fun c sid mt kw => rfl, fun c sid => rfl,
    fun c sid => rfl, fun c sid => rfl⟩
  · intro c m mc sid
    have hstep : (chat c m mc sid (respond 200 (Json.obj kvsR))).1 =
        (Json.obj kvsR).getKey "response" := rfl
    rw [hstep]
    simp [Json.getKey, hr]
  · intro c text pt mc
    have hstep : (summarize c text pt mc (respond 200 (Json.obj kvsS))).1 =
        (Json.obj kvsS).getKey "summary" := rfl
    rw [hstep]
    simp [Json.getKey, hs]
  · intro c sid
    have hstep : (get_memory_history c sid (respond 200 (Json.obj kvsH))).1 =
        (Json.obj kvsH).getKey "history" := rfl
    rw [hstep]
    simp [Json.getKey, hh]
  · intro c
    have hstep : (list_conversations c (respond 200 (Json.obj kvsC))).1 =
        (Json.obj kvsC).getKey "conversations" := rfl
    rw [hstep]
    simp [Json.getKey, hc]

/-- Witness for C4: each field-extracting operation on a concrete body
holding only its own documented field (e.g. a chat body that has a
`response` key and nothing else). -/
theorem success_returns_documented_extraction_witness :
    (chat (clientInit "http://h") "hi" "general" none
      (respond 200 (Json.obj [("response", Json.str "r")]))).1 = Except.ok (Json.str "r") ∧
    (summarize (clientInit "http://h") "long text" "general" "general"
      (respond 200 (Json.obj [("summary", Json.str "s")]))).1 = Except.ok (Json.str "s") ∧
    (get_memory_history (clientInit "http://h") "sess"
      (respond 200 (Json.obj [("history", Json.arr [])]))).1 = Except.ok (Json.arr []) ∧
    (list_conversations (clientInit "http://h")
      (respond 200 (Json.obj [("conversations", Json.arr [])]))).1 =
      Except.ok (Json.arr []) ∧
    (health (clientInit "http://h") (respond 200 (Json.obj []))).1 =
      Except.ok (Json.obj []) :=
  have h := success_returns_documented_extraction
    [("response", Json.str "r")] [("summary", Json.str "s")]
    [("history", Json.arr [])] [("conversations", Json.arr [])]
    (Json.obj []) (Json.str "r") (Json.str "s") (Json.arr []) (Json.arr [])
    rfl rfl rfl rfl
  ⟨h.1 (clientInit "http://h") "hi" "general" none,
   h.2.1 (clientInit "http://h") "long text" "general" "general",
   h.2.2.1 (clientInit "http://h") "sess",
   h.2.2.2.1 (clientInit "http://h"),
   h.2.2.2.2.1 (clientInit "http://h")⟩

/-- `raise_for_status` on a 4xx/5xx status raises `HTTPError` carrying the
status and its detail text. -/
theorem raise_for_status_of_4xx5xx (status : Nat) (h4 : 400 ≤ status)
    (h6 : status < 600) :
    raise_for_status status = Except.error (PyError.http status (statusDetail status)) := by
  unfold raise_for_status statusDetail
  by_cases h5 : status < 500
  · rw [if_pos ⟨h4, h5⟩, if_pos h5]
  · rw [if_neg (fun hcon => h5 hcon.2), if_pos ⟨Nat.le_of_not_lt h5, h6⟩, if_neg h5]

/-- A string starting with the CLI error prefix is never empty. -/
theorem error_prefix_ne_empty (s : String) : "Error: " ++ s ≠ "" := by
  intro h
  have h' := congrArg String.data h
  rw [String.data_append] at h'
  have h0 : "Error: ".data = [] := (List.append_eq_nil.mp h').1
  exact absurd h0 (by decide)

/-- Mapping over a failed `Except` keeps the failure. -/
theorem except_map_err {α β : Type} (f : α → β) (e : PyError) :
    Except.map f (Except.error e : Except PyError α) = Except.error e := rfl

/-- Binding a failed `Except` keeps the failure. -/
theorem except_bind_err {α β : Type} (f : α → Except PyError β) (e : PyError) :
    (Except.error e : Except PyError α) >>= f = Except.error e := rfl

/-- Counterexample to C2 as stated: status 304 is not a 2xx success code,
yet `raise_for_status` raises only for 4xx/5xx, so a 304 response with a
well-formed body makes `chat` return normally and the CLI exit 0 with an
empty standard error. -/
theorem non_2xx_304_does_not_raise :
    ¬ (200 ≤ 304 ∧ 304 < 300) ∧
    raise_for_status 304 = Except.ok () ∧
    (chat (clientInit "http://h") "hi" "general" none
      (respond 304 (Json.obj [("response", Json.str "cached")]))).1 =
      Except.ok (Json.str "cached") ∧
    (cli_main "http://h" (some (CliCommand.chat "hi" "general" none)) ""
      (respond 304 (Json.obj [("response", Json.str "cached")]))).exitCode = 0 ∧
    (cli_main "http://h" (some (CliCommand.chat "hi" "general" none)) ""
      (respond 304 (Json.obj [("response", Json.str "cached")]))).stderrText = "" :=
  ⟨by decide, rfl, rfl, rfl, rfl⟩

/-- C2 (amended): a 4xx or 5xx response status makes every client
operation raise the request-error condition carrying the status (and its
detail), and any CLI subcommand receiving such a response exits with code
1 after printing a non-empty `Error: ...` message to standard error. -/
theorem http_error_raises_and_cli_exits_1 (status : Nat) (body : Json)
    (h4 : 400 ≤ status) (h6 : status < 600) :
    (∀ c, (health c (respond status body)).1 =
      Except.error (PyError.http status (statusDetail status))) ∧
    (∀ c, (info c (respond status body)).1 =
      Except.error (PyError.http status (statusDetail status))) ∧
    (∀ c m mc sid, (chat c m mc sid (respond status body)).1 =
      Except.error (PyError.http status (statusDetail status))) ∧
    (∀ c m mc chunks, (chat_stream c m mc (streamRespond status chunks)).1 =
      Except.error (PyError.http status (statusDetail status))) ∧
    (∀ c q coll mc k, (rag_query c q coll mc k (respond status body)).1 =
      Except.error (PyError.http status (statusDetail status))) ∧
    (∀ c q coll mc k sid, (rag_conversational c q coll mc k sid (respond status body)).1 =
      Except.error (PyError.http status (statusDetail status))) ∧
    (∀ c task at_ vb, (run_agent c task at_ vb (respond status body)).1 =
      Except.error (PyError.http status (statusDetail status))) ∧
    (∀ c issue vb, (troubleshoot c issue vb (respond status body)).1 =
      Except.error (PyError.http status (statusDetail status))) ∧
    (∀ c text pt mc, (summarize c text pt mc (respond status body)).1 =
      Except.error (PyError.http status (statusDetail status))) ∧
    (∀ c lc mc, (analyze_logs c lc mc (respond status body)).1 =
      Except.error (PyError.http status (statusDetail status))) ∧
    (∀ c cc ct mc, (analyze_config c cc ct mc (respond status body)).1 =
      Except.error (PyError.http status (statusDetail status))) ∧
    (∀ c sid mt kw, (create_memory c sid mt kw (respond status body)).1 =
      Except.error (PyError.http status (statusDetail status))) ∧
    (∀ c sid, (get_memory_history c sid (respond status body)).1 =
      Except.error (PyError.http status (statusDetail status))) ∧
    (∀ c sid, (clear_memory c sid (respond status body)).1 =
      Except.error (PyError.http status (statusDetail status))) ∧
    (∀ c, (list_conversations c (respond status body)).1 =
      Except.error (PyError.http status (statusDetail status))) ∧
    (∀ c sid, (get_conversation c sid (respond status body)).1 =
      Except.error (PyError.http status (statusDetail status))) ∧
    (∀ c sid, (delete_conversation c sid (respond status body)).1 =
      Except.error (PyError.http status (statusDetail status))) ∧
    (∀ url stdinText cmd,
      (cli_main url (some cmd) stdinText (respond status body)).exitCode = 1 ∧
      (cli_main url (some cmd) stdinText (respond status body)).stderrText =
        "Error: " ++ (PyError.http status (statusDetail status)).message ∧
      (cli_main url (some cmd) stdinText (respond status body)).stderrText ≠ "") := by
  have herr := raise_for_status_of_4xx5xx status h4 h6
  have hjson : ∀ b : Json, jsonHandle { status := status, body := b } =
      Except.error (PyError.http status (statusDetail status)) := by
    intro b
    simp only [jsonHandle]
    rw [herr]
    rfl
  have hfield : ∀ (k : String) (b : Json), fieldHandle k { status := status, body := b } =
      Except.error (PyError.http status (statusDetail status)) := by
    intro k b
    simp only [fieldHandle]
    rw [herr]
    rfl
  have hdisp : ∀ url stdinText cmd,
      cli_dispatch (clientInit url) cmd stdinText (respond status body) =
        Except.error (PyError.http status (statusDetail status)) := by
    intro url stdinText cmd
    cases cmd <;>
      simp [cli_dispatch, health, info, chat, rag_query, run_agent, summarize, runOp,
        respond, hjson, hfield, except_map_err, except_bind_err]
  refine ⟨fun c => hjson body, fun c => hjson body, fun c m mc sid => hfield "response" body,
    ?_, fun c q coll mc k => hjson body, fun c q coll mc k sid => hjson body,
    fun c task at_ vb => hjson body, fun c issue vb => hjson body,
    fun c text pt mc => hfield "summary" body, fun c lc mc => hjson body,
    fun c cc ct mc => hjson body, fun c sid mt kw => hjson body,
    fun c sid => hfield "history" body, fun c sid => hjson body,
    fun c => hfield "conversations" body, fun c sid => hjson body,
    fun c sid => hjson body, ?_⟩
  · intro c m mc chunks
    show (do raise_for_status status
             pure (chunks.filter (fun chunk => chunk != ""))) = _
    rw [herr]
    rfl
  · intro url stdinText cmd
    have hmain : cli_main url (some cmd) stdinText (respond status body) =
        { exitCode := 1, helpPrinted := false, stdoutVals := [],
          stderrText := "Error: " ++ (PyError.http status (statusDetail status)).message } := by
      simp [cli_main, hdisp url stdinText cmd, PyError.isRequestError]
    rw [hmain]
    exact ⟨rfl, rfl, error_prefix_ne_empty _⟩

/-- Witness for C2 (amended) at status 500 on the `health` operation and
the `health` CLI subcommand. -/
theorem http_error_raises_and_cli_exits_1_witness :
    (health (clientInit "http://h") (respond 500 (Json.obj []))).1 =
      Except.error (PyError.http 500 (statusDetail 500)) ∧
    (cli_main "http://h" (some CliCommand.health) "" (respond 500 (Json.obj []))).exitCode
      = 1 ∧
    (cli_main "http://h" (some CliCommand.health) "" (respond 500 (Json.obj []))).stderrText
      ≠ "" :=
  have h := http_error_raises_and_cli_exits_1 500 (Json.obj []) (by decide) (by decide)
  ⟨h.1 (clientInit "http://h"),
   (h.2.2.2.2.2.2.2.2.2.2.2.2.2.2.2.2.2 "http://h" "" CliCommand.health).1,
   (h.2.2.2.2.2.2.2.2.2.2.2.2.2.2.2.2.2 "http://h" "" CliCommand.health).2.2⟩

/-- `chat_stream` also records exactly its one request, for any transport. -/
theorem chat_stream_trace (c : LangChainClient) (message model_config : String)
    (t : StreamTransport) :
    (chat_stream c message model_config t).2 = [chat_stream_request c message model_config] := by
  rcases h : t (chat_stream_request c message model_config) with m | r <;>
    simp [chat_stream, h]

/-- C6: every client operation issues exactly one HTTP request per call —
the recorded request trace is the one-element list of its request — and a
transport failure (connection error or timeout) propagates immediately as
the request-error condition, with the trace still showing a single request
(no retry). -/
theorem one_request_per_call_no_retry :
    (∀ c t, (health c t).2 = [health_request c]) ∧
    (∀ c t, (info c t).2 = [info_request c]) ∧
    (∀ c m mc sid t, (chat c m mc sid t).2 = [chat_request c m mc sid]) ∧
    (∀ c m mc t, (chat_stream c m mc t).2 = [chat_stream_request c m mc]) ∧
    (∀ c q coll mc k t, (rag_query c q coll mc k t).2 = [rag_query_request c q coll mc k]) ∧
    (∀ c q coll mc k sid t, (rag_conversational c q coll mc k sid t).2 =
      [rag_conversational_request c q coll mc k sid]) ∧
    (∀ c task at_ vb t, (run_agent c task at_ vb t).2 = [run_agent_request c task at_ vb]) ∧
    (∀ c issue vb t, (troubleshoot c issue vb t).2 = [troubleshoot_request c issue vb]) ∧
    (∀ c text pt mc t, (summarize c text pt mc t).2 = [summarize_request c text pt mc]) ∧
    (∀ c lc mc t, (analyze_logs c lc mc t).2 = [analyze_logs_request c lc mc]) ∧
    (∀ c cc ct mc t, (analyze_config c cc ct mc t).2 = [analyze_config_request c cc ct mc]) ∧
    (∀ c sid mt kw t, (create_memory c sid mt kw t).2 = [create_memory_request c sid mt kw]) ∧
    (∀ c sid t, (get_memory_history c sid t).2 = [get_memory_history_request c sid]) ∧
    (∀ c sid t, (clear_memory c sid t).2 = [clear_memory_request c sid]) ∧
    (∀ c t, (list_conversations c t).2 = [list_conversations_request c]) ∧
    (∀ c sid t, (get_conversation c sid t).2 = [get_conversation_request c sid]) ∧
    (∀ c sid t, (delete_conversation c sid t).2 = [delete_conversation_request c sid]) ∧
    (∀ c m, (health c (failWith m)).1 = Except.error (PyError.transport m) ∧
      (health c (failWith m)).2 = [health_request c]) ∧
    (∀ c msg mc sid m, (chat c msg mc sid (failWith m)).1 =
      Except.error (PyError.transport m) ∧
      (chat c msg mc sid (failWith m)).2 = [chat_request c msg mc sid]) ∧
    (∀ c msg mc m, (chat_stream c msg mc (streamFailWith m)).1 =
      Except.error (PyError.transport m) ∧
      (chat_stream c msg mc (streamFailWith m)).2 = [chat_stream_request c msg mc]) ∧
    (∀ c sid mt kw m, (create_memory c sid mt kw (failWith m)).1 =
      Except.error (PyError.transport m) ∧
      (create_memory c sid mt kw (failWith m)).2 = [create_memory_request c sid mt kw]) ∧
    (∀ c sid m, (get_memory_history c sid (failWith m)).1 =
      Except.error (PyError.transport m) ∧
      (get_memory_history c sid (failWith m)).2 = [get_memory_history_request c sid]) := by
  refine ⟨fun c t => runOp_trace _ _ t, fun c t => runOp_trace _ _ t,
    fun c m mc sid t => runOp_trace _ _ t, fun c m mc t => chat_stream_trace c m mc t,
    fun c q coll mc k t => runOp_trace _ _ t, fun c q coll mc k sid t => runOp_trace _ _ t,
    fun c task at_ vb t => runOp_trace _ _ t, fun c issue vb t => runOp_trace _ _ t,
    fun c text pt mc t => runOp_trace _ _ t, fun c lc mc t => runOp_trace _ _ t,
    fun c cc ct mc t => runOp_trace _ _ t, fun c sid mt kw t => runOp_trace _ _ t,
    fun c sid t => runOp_trace _ _ t, fun c sid t => runOp_trace _ _ t,
    fun c t => runOp_trace _ _ t, fun c sid t => runOp_trace _ _ t,
    fun c sid t => runOp_trace _ _ t,
    fun c m => ⟨rfl, rfl⟩, fun c msg mc sid m => ⟨rfl, rfl⟩,
    fun c msg mc m => ⟨rfl, rfl⟩, fun c sid mt kw m => ⟨rfl, rfl⟩,
    fun c sid m => ⟨rfl, rfl⟩⟩
